import Mathlib

/-!
Verification of the performance-model pipeline of
`aircraft-performance-simulator` (src/main.py) against its specification.

The source is a single straight-line script: aircraft constants, an ISA
atmosphere function, and a chain of arithmetic assignments (aerodynamics,
thrust, climb, ground performance, Breguet range).  Python/numpy floating
point is embedded as real arithmetic; each definition below mirrors one
assignment or function of the source, keeping the source's names.
-/

namespace B777

/-- Wing reference area, src/main.py line 31: `S = 427`. -/
noncomputable def S : ℝ := 427

/-- Zero-lift drag coefficient, line 34: `CD0 = 0.018`. -/
noncomputable def CD0 : ℝ := 0.018

/-- Induced-drag factor, line 35: `K = 0.045`. -/
noncomputable def K : ℝ := 0.045

/-- Maximum takeoff lift coefficient, line 36: `CLmax_TO = 1.6`. -/
noncomputable def CLmax_TO : ℝ := 1.6

/-- Maximum landing lift coefficient, line 37: `CLmax_L = 2.2`. -/
noncomputable def CLmax_L : ℝ := 2.2

/-- Sea-level static thrust, line 38: `thrust_SL = 800000`. -/
noncomputable def thrust_SL : ℝ := 800000

/-- Specific fuel consumption per hour, line 39: `TSFC_hr = 0.6`. -/
noncomputable def TSFC_hr : ℝ := 0.6

/-- Gravitational acceleration, line 43: `g = 9.81`. -/
noncomputable def g : ℝ := 9.81

/-- Troposphere branch of the ISA model, lines 64-71 of src/main.py with
`h <= 11000`: `T = T0 + L*h`, `P = P0*(T/T0)**(-g/(L*R))`, returning
`(rho, a) = (P/(R*T), sqrt(1.4*R*T))` with `T0=288.15`, `P0=101325`,
`L=-0.0065`, `R=287`. -/
noncomputable def isa_tropo (h : ℝ) : ℝ × ℝ :=
  (101325 * ((288.15 + (-0.0065) * h) / 288.15) ^ (-g / ((-0.0065) * 287)) /
      (287 * (288.15 + (-0.0065) * h)),
   Real.sqrt (1.4 * 287 * (288.15 + (-0.0065) * h)))

/-- Stratosphere branch of the ISA model, lines 64-71 with `h > 11000`:
`T = 216.65`, `P = 22632*exp(-g*(h-11000)/(R*T))`. -/
noncomputable def isa_strato (h : ℝ) : ℝ × ℝ :=
  (22632 * Real.exp (-g * (h - 11000) / (287 * 216.65)) / (287 * 216.65),
   Real.sqrt (1.4 * 287 * 216.65))

/-- ISA atmosphere, lines 63-71: density and speed of sound at altitude
`h` in metres, branching at 11000 m. -/
noncomputable def isa (h : ℝ) : ℝ × ℝ :=
  if h ≤ 11000 then isa_tropo h else isa_strato h

/-- Dynamic pressure, line 81: `q = 0.5*rho*V**2`. -/
noncomputable def q (rho V : ℝ) : ℝ := 0.5 * rho * V ^ 2

/-- Lift coefficient from the trim condition, line 82: `CL = W/(q*S)`. -/
noncomputable def CL (W qdyn : ℝ) : ℝ := W / (qdyn * S)

/-- Parabolic drag polar, line 83: `CD = CD0 + K*CL**2`. -/
noncomputable def CD (cl : ℝ) : ℝ := CD0 + K * cl ^ 2

/-- Lift force, line 85: `Lift = q*S*CL`. -/
noncomputable def Lift (qdyn cl : ℝ) : ℝ := qdyn * S * cl

/-- Drag force, line 86: `Drag = q*S*CD`. -/
noncomputable def Drag (qdyn cd : ℝ) : ℝ := qdyn * S * cd

/-- Lift-to-drag ratio, line 87: `LD = CL/CD`. -/
noncomputable def LD (cl cd : ℝ) : ℝ := cl / cd

/-- Density ratio to sea level, line 93: `sigma = rho/1.225`. -/
noncomputable def sigma (rho : ℝ) : ℝ := rho / 1.225

/-- Available thrust, line 94:
`Thrust_available = thrust_SL*(sigma**0.8)*(1-0.25*Mach)`.
The source has no throttle input. -/
noncomputable def Thrust_available (rho mach : ℝ) : ℝ :=
  thrust_SL * sigma rho ^ ((0.8 : ℝ)) * (1 - 0.25 * mach)

/-- Available-thrust formula as §4.2 of the spec words it, including the
trailing throttle factor that the source does not have; kept separate so
the source definition can be compared against it. -/
noncomputable def Thrust_available_model (static rho mach throttle : ℝ) : ℝ :=
  static * (rho / 1.225) ^ ((0.8 : ℝ)) * (1 - 0.25 * mach) * throttle

/-- Required power, line 97: `Power_required = Thrust_required * V`. -/
noncomputable def Power_required (tr V : ℝ) : ℝ := tr * V

/-- Available power, line 98: `Power_available = Thrust_available * V`. -/
noncomputable def Power_available (ta V : ℝ) : ℝ := ta * V

/-- Rate of climb, line 100:
`ROC = (Thrust_available - Thrust_required)*V/W`. -/
noncomputable def ROC (ta tr V W : ℝ) : ℝ := (ta - tr) * V / W

/-- Specific fuel consumption per second, line 129:
`TSFC_sec = TSFC_hr/3600`. -/
noncomputable def TSFC_sec : ℝ := TSFC_hr / 3600

/-- Breguet range, line 130: `Range = (V/TSFC_sec) * LD * log(Wi/Wf)`.
The source raises no error; `np.log` is applied unconditionally. -/
noncomputable def Range (V ld Wi Wf : ℝ) : ℝ :=
  (V / TSFC_sec) * ld * Real.log (Wi / Wf)

/-- Breguet endurance, line 131:
`Endurance = (1/TSFC_sec) * LD * log(Wi/Wf)`. -/
noncomputable def Endurance (ld Wi Wf : ℝ) : ℝ :=
  (1 / TSFC_sec) * ld * Real.log (Wi / Wf)

/-- Division as numpy float64 performs it at line 82: a finite quotient
when the denominator is nonzero, and a non-finite result (infinity, with
a runtime warning but no exception) when the denominator is zero; `none`
marks the non-finite outcome. -/
noncomputable def npdiv (a b : ℝ) : Option ℝ :=
  if b = 0 then none else some (a / b)

/-- Lift coefficient of line 82 with numpy division made explicit:
`CL = W/(q*S)` where a zero denominator yields the non-finite marker. -/
noncomputable def CL_np (W qdyn : ℝ) : Option ℝ := npdiv W (qdyn * S)

/-- Flight-condition inputs read from the sidebar sliders,
lines 51-54 of src/main.py. -/
structure FlightInput where
  mass : ℝ
  altitude_ft : ℝ
  mach : ℝ
  fuel_fraction : ℝ

/-- Sea-level density, line 106: `rho0,_ = isa(0)`. -/
noncomputable def rho0 : ℝ := (isa 0).1

/-- Takeoff weight, line 107: `W0 = mass*g`. -/
noncomputable def W0 (fi : FlightInput) : ℝ := fi.mass * g

/-- Takeoff stall speed, line 109:
`V_stall_TO = sqrt(2*W0/(rho0*S*CLmax_TO))`. -/
noncomputable def V_stall_TO (fi : FlightInput) : ℝ :=
  Real.sqrt (2 * W0 fi / (rho0 * S * CLmax_TO))

/-- Takeoff safety speed, line 110: `V2 = 1.2 * V_stall_TO`. -/
noncomputable def V2 (fi : FlightInput) : ℝ := 1.2 * V_stall_TO fi

/-- Rolling friction coefficient, line 112: `mu_roll = 0.02`. -/
noncomputable def mu_roll : ℝ := 0.02

/-- Takeoff drag at V2, line 113. -/
noncomputable def Drag_TO (fi : FlightInput) : ℝ :=
  0.5 * rho0 * V2 fi ^ 2 * S *
    (CD0 + K * (W0 fi / (0.5 * rho0 * V2 fi ^ 2 * S)) ^ 2)

/-- Net accelerating force, line 114:
`Net_force = thrust_SL - Drag_TO - mu_roll*W0`. -/
noncomputable def Net_force (fi : FlightInput) : ℝ :=
  thrust_SL - Drag_TO fi - mu_roll * W0 fi

/-- Takeoff acceleration, line 115: `a_TO = Net_force/mass`. -/
noncomputable def a_TO (fi : FlightInput) : ℝ := Net_force fi / fi.mass

/-- Takeoff distance, line 116: `S_takeoff = V2**2/(2*a_TO)`. -/
noncomputable def S_takeoff (fi : FlightInput) : ℝ :=
  V2 fi ^ 2 / (2 * a_TO fi)

/-- Landing weight assumption, line 118: `Landing_weight = 0.85 * mass`. -/
noncomputable def Landing_weight (fi : FlightInput) : ℝ := 0.85 * fi.mass

/-- Landing weight in newtons, line 119: `W_land = Landing_weight * g`. -/
noncomputable def W_land (fi : FlightInput) : ℝ := Landing_weight fi * g

/-- Landing stall speed, line 120:
`V_stall_L = sqrt(2*W_land/(rho0*S*CLmax_L))`. -/
noncomputable def V_stall_L (fi : FlightInput) : ℝ :=
  Real.sqrt (2 * W_land fi / (rho0 * S * CLmax_L))

/-- Approach speed, line 121: `V_app = 1.3 * V_stall_L`. -/
noncomputable def V_app (fi : FlightInput) : ℝ := 1.3 * V_stall_L fi

/-- Braking deceleration, line 122: `a_brake = 0.3 * g`. -/
noncomputable def a_brake : ℝ := 0.3 * g

/-- Landing distance, line 123: `S_landing = V_app**2/(2*a_brake)`. -/
noncomputable def S_landing (fi : FlightInput) : ℝ :=
  V_app fi ^ 2 / (2 * a_brake)

/-- C1: for every input with positive dynamic pressure `q = 0.5*rho*V^2`,
the lift force `Lift = q*S*CL` with `CL = W/(q*S)` recovers the weight
`W = mass*g` exactly. -/
theorem lift_equals_weight (rho V mass : ℝ) (hq : 0 < q rho V) :
    Lift (q rho V) (CL (mass * g) (q rho V)) = mass * g := by
  have hS : (0 : ℝ) < S := by norm_num [S]
  have hqS : q rho V * S ≠ 0 := by positivity
  unfold Lift CL
  field_simp

/-- Witness for C1 at `rho = 1.225`, `V = 100`, `mass = 250000`. -/
theorem lift_equals_weight_witness :
    Lift (q 1.225 100) (CL (250000 * g) (q 1.225 100)) = 250000 * g :=
  lift_equals_weight 1.225 100 250000 (by norm_num [q])

/-- C2 counterexample: with equal initial and final weights the Range and
Endurance formulas of lines 129-131 return exactly 0 — no error is
raised; the computation is a total arithmetic expression. -/
theorem range_equal_weights_counterexample :
    Range 200 18 250000 250000 = 0 ∧ Endurance 18 250000 250000 = 0 := by
  constructor <;> norm_num [Range, Endurance]

/-- C2 amended: the source performs no validation; whenever `Wi = Wf`
with `Wf` nonzero, `Range` and `Endurance` evaluate to exactly 0
(`log 1 = 0`), silently and without any error. -/
theorem range_endurance_zero_at_equal_weights (V ld Wi Wf : ℝ)
    (h1 : Wi = Wf) (h2 : Wf ≠ 0) :
    Range V ld Wi Wf = 0 ∧ Endurance ld Wi Wf = 0 := by
  subst h1
  rw [Range, Endurance, div_self h2, Real.log_one]
  norm_num

/-- Witness for the amended C2 at `Wi = Wf = 250000`. -/
theorem range_endurance_zero_at_equal_weights_witness :
    Range 200 18 250000 250000 = 0 ∧ Endurance 18 250000 250000 = 0 :=
  range_endurance_zero_at_equal_weights 200 18 250000 250000 rfl (by norm_num)

/-- C3 counterexample: at zero dynamic pressure the lift-coefficient
computation of line 82 returns the non-finite (infinite) numpy value —
encoded `none` — rather than aborting with an error: the source has no
error path at all. -/
theorem cl_zero_q_counterexample : CL_np (250000 * g) 0 = none := by
  norm_num [CL_np, npdiv]

/-- C3 amended: with `mach = 0` (so `V = 0 * a` and `q = 0`) the
computation of `CL` yields the non-finite marker for every mass and
density, and no error is raised. -/
theorem cl_nonfinite_at_zero_mach (mass rho : ℝ) :
    CL_np (mass * g) (q rho (0 * (isa 0).2)) = none := by
  norm_num [CL_np, npdiv, q]

/-- C4 counterexample: the claimed formula with a throttle factor does
not match the source at throttle `0.5`: the source (line 94) has no
throttle input, so its value at `rho = 1.225`, `mach = 0` is 800000
while the spec formula gives 400000. -/
theorem thrust_throttle_counterexample :
    Thrust_available 1.225 0 ≠ Thrust_available_model thrust_SL 1.225 0 0.5 := by
  have h1 : ((1.225 : ℝ) / 1.225) = 1 := by norm_num
  unfold Thrust_available Thrust_available_model sigma thrust_SL
  rw [h1, Real.one_rpow]
  norm_num

/-- C4 amended: the source models no throttle; its available thrust
equals the spec formula `static*(rho/1.225)^0.8*(1-0.25*mach)*throttle`
evaluated at the default throttle of 1. -/
theorem thrust_available_eq_model_at_full_throttle (rho mach : ℝ) :
    Thrust_available rho mach = Thrust_available_model thrust_SL rho mach 1 := by
  unfold Thrust_available Thrust_available_model sigma
  ring

/-- C8: for every input, Range equals cruise speed times Endurance,
since the two formulas of lines 130-131 differ only by the factor V. -/
theorem range_eq_speed_mul_endurance (V ld Wi Wf : ℝ) :
    Range V ld Wi Wf = V * Endurance ld Wi Wf := by
  unfold Range Endurance
  ring

/-- C9: for positive weight, rate of climb times weight equals excess
power: `ROC*W = Power_available - Power_required` (lines 97-100). -/
theorem roc_times_weight_eq_excess_power (ta tr V W : ℝ) (hW : 0 < W) :
    ROC ta tr V W * W = Power_available ta V - Power_required tr V := by
  unfold ROC Power_available Power_required
  field_simp
  ring

/-- Witness for C9 at `ta = 900000`, `tr = 500000`, `V = 250`,
`W = 2452500`. -/
theorem roc_times_weight_eq_excess_power_witness :
    ROC 900000 500000 250 2452500 * 2452500 =
      Power_available 900000 250 - Power_required 500000 250 :=
  roc_times_weight_eq_excess_power 900000 500000 250 2452500 (by norm_num)

/-- C10: takeoff and landing distances (lines 106-123) are functions of
the aircraft mass alone: two flight conditions with equal mass but any
altitudes, Mach numbers and fuel fractions give identical distances,
because both are evaluated at sea-level density and static thrust. -/
theorem ground_distances_depend_only_on_mass (fi fj : FlightInput)
    (h : fi.mass = fj.mass) :
    S_takeoff fi = S_takeoff fj ∧ S_landing fi = S_landing fj := by
  constructor
  · simp only [S_takeoff, a_TO, Net_force, Drag_TO, V2, V_stall_TO, W0, h]
  · simp only [S_landing, V_app, V_stall_L, W_land, Landing_weight, h]

/-- Witness for C10: equal mass 250000 kg, different altitude, Mach and
fuel fraction. -/
theorem ground_distances_depend_only_on_mass_witness :
    S_takeoff ⟨250000, 35000, 0.84, 1.5⟩ = S_takeoff ⟨250000, 0, 0.3, 1.2⟩ ∧
      S_landing ⟨250000, 35000, 0.84, 1.5⟩ = S_landing ⟨250000, 0, 0.3, 1.2⟩ :=
  ground_distances_depend_only_on_mass ⟨250000, 35000, 0.84, 1.5⟩
    ⟨250000, 0, 0.3, 1.2⟩ rfl

/-- C7: the ISA model at altitude 0 yields density within 0.1% of
1.225 kg/m^3 and speed of sound within 0.1% of 340.3 m/s. -/
theorem isa_sea_level_standard :
    |(isa 0).1 - 1.225| ≤ 0.001 * 1.225 ∧
      |(isa 0).2 - 340.3| ≤ 0.001 * 340.3 := by
  have h0 : isa 0 = isa_tropo 0 := by rw [isa, if_pos]; norm_num
  rw [h0]
  constructor
  · have hx : ((288.15 + (-0.0065) * (0 : ℝ)) / 288.15) = 1 := by norm_num
    simp only [isa_tropo, hx, Real.one_rpow]
    rw [abs_le]
    constructor <;> norm_num
  · have hA : (1.4 * 287 * (288.15 + (-0.0065) * (0 : ℝ))) = 115778.67 := by
      norm_num
    simp only [isa_tropo, hA]
    have hub : Real.sqrt 115778.67 ≤ 340.6403 := by
      have h2 : (115778.67 : ℝ) ≤ 340.6403 ^ 2 := by norm_num
      calc Real.sqrt 115778.67 ≤ Real.sqrt (340.6403 ^ 2) := Real.sqrt_le_sqrt h2
        _ = 340.6403 := Real.sqrt_sq (by norm_num)
    have hlb : (339.9597 : ℝ) ≤ Real.sqrt 115778.67 := by
      have h2 : ((339.9597 : ℝ)) ^ 2 ≤ 115778.67 := by norm_num
      calc (339.9597 : ℝ) = Real.sqrt (339.9597 ^ 2) :=
            (Real.sqrt_sq (by norm_num)).symm
        _ ≤ Real.sqrt 115778.67 := Real.sqrt_le_sqrt h2
    rw [abs_le]
    constructor <;> linarith

/-- Modelled from the spec: the altitude grid of the service-ceiling
search of §4.4, absent from src/main.py — `n` equal steps from `lo` to
`hi` (the spec suggests 200 steps from 0 to 15000 m). -/
noncomputable def ceilingGrid (lo hi : ℝ) (n : ℕ) : List ℝ :=
  (List.range (n + 1)).map (fun (i : ℕ) => lo + (hi - lo) * (i : ℝ) / n)

/-- Modelled from the spec: the scan of §4.4, absent from src/main.py —
walk the altitude list upward and return the first altitude whose rate
of climb is ≤ 0, or `none` when the range is exhausted. -/
noncomputable def findCeiling (roc : ℝ → ℝ) : List ℝ → Option ℝ
  | [] => none
  | a :: t => if roc a ≤ 0 then some a else findCeiling roc t

/-- Modelled from the spec: rate of climb recomputed at altitude `h` for
a fixed flight condition, composing the source pipeline of lines 73-100
(ISA density and speed of sound, `V = mach*a`, trim CL, drag polar,
available thrust, `ROC = (Ta - Tr)*V/W`). -/
noncomputable def rocAt (fi : FlightInput) (h : ℝ) : ℝ :=
  ROC (Thrust_available (isa h).1 fi.mach)
    (Drag (q (isa h).1 (fi.mach * (isa h).2))
      (CD (CL (fi.mass * g) (q (isa h).1 (fi.mach * (isa h).2)))))
    (fi.mach * (isa h).2) (fi.mass * g)

/-- Modelled from the spec: the service-ceiling search of §4.4, absent
from src/main.py — scan 200 steps from 0 to 15000 m at fixed Mach and
throttle, returning the first altitude where ROC ≤ 0, else `none`. -/
noncomputable def serviceCeiling (fi : FlightInput) : Option ℝ :=
  findCeiling (rocAt fi) (ceilingGrid 0 15000 200)

lemma findCeiling_cons (roc : ℝ → ℝ) (a : ℝ) (t : List ℝ) :
    findCeiling roc (a :: t) = if roc a ≤ 0 then some a else findCeiling roc t :=
  rfl

lemma findCeiling_eq_none_iff (roc : ℝ → ℝ) (l : List ℝ) :
    findCeiling roc l = none ↔ ∀ h ∈ l, 0 < roc h := by
  induction l with
  | nil => simp [findCeiling]
  | cons a t ih =>
      rw [findCeiling_cons]
      by_cases ha : roc a ≤ 0
      · rw [if_pos ha]
        constructor
        · intro h; exact absurd h (by simp)
        · intro h
          exact absurd (h a (List.mem_cons_self a t)) (not_lt.2 ha)
      · rw [if_neg ha, ih]
        simp only [List.mem_cons]
        constructor
        · intro h x hx
          rcases hx with hx | hx
          · subst hx; exact lt_of_not_le ha
          · exact h x hx
        · intro h x hx; exact h x (Or.inr hx)

lemma findCeiling_eq_some (roc : ℝ → ℝ) (l : List ℝ) (c : ℝ)
    (h : findCeiling roc l = some c) :
    roc c ≤ 0 ∧ ∃ pre post, l = pre ++ c :: post ∧ ∀ x ∈ pre, 0 < roc x := by
  induction l with
  | nil => simp [findCeiling] at h
  | cons a t ih =>
      rw [findCeiling_cons] at h
      by_cases ha : roc a ≤ 0
      · rw [if_pos ha] at h
        obtain rfl : a = c := Option.some.inj h
        exact ⟨ha, [], t, rfl, by simp⟩
      · rw [if_neg ha] at h
        obtain ⟨hc, pre, post, hl, hpre⟩ := ih h
        refine ⟨hc, a :: pre, post, by rw [hl]; rfl, ?_⟩
        intro x hx
        rcases List.mem_cons.1 hx with hx | hx
        · subst hx; exact lt_of_not_le ha
        · exact hpre x hx

/-- C5: the service-ceiling search scans the discrete altitude grid in
order at fixed Mach and throttle, recomputing ROC at each step; it
returns `some c` exactly for the first scanned altitude `c` with
ROC ≤ 0 (every earlier grid point has ROC > 0), and returns the
explicit not-found value `none` precisely when every scanned altitude
has ROC > 0 — never a boundary altitude. -/
theorem service_ceiling_scan_correct (roc : ℝ → ℝ) (lo hi : ℝ) (n : ℕ) :
    (findCeiling roc (ceilingGrid lo hi n) = none ↔
        ∀ h ∈ ceilingGrid lo hi n, 0 < roc h) ∧
      ∀ c, findCeiling roc (ceilingGrid lo hi n) = some c →
        roc c ≤ 0 ∧ ∃ pre post, ceilingGrid lo hi n = pre ++ c :: post ∧
          ∀ x ∈ pre, 0 < roc x :=
  ⟨findCeiling_eq_none_iff roc _, fun c h => findCeiling_eq_some roc _ c h⟩

/-- Witness for C5: on the spec grid (0 to 15000 m, 200 steps) with an
everywhere-negative ROC the scan stops at the first grid point, 0. -/
theorem service_ceiling_scan_correct_witness :
    (-1 : ℝ) ≤ 0 ∧ ∃ pre post,
      ceilingGrid 0 15000 200 = pre ++ (0 : ℝ) :: post ∧
        ∀ x ∈ pre, (0 : ℝ) < -1 := by
  have hsome : findCeiling (fun _ => (-1 : ℝ)) (ceilingGrid 0 15000 200) =
      some 0 := by
    rw [ceilingGrid, List.range_succ_eq_map, List.map_cons, findCeiling_cons]
    norm_num
  exact (service_ceiling_scan_correct (fun _ => (-1 : ℝ)) 0 15000 200).2 0 hsome

set_option maxHeartbeats 4000000 in
lemma rpow_main_upper :
    ((216.65 : ℝ) / 288.15) ^ ((9.81 : ℝ) / 1.8655) ≤ 0.2232 := by
  have hx0 : (0 : ℝ) < 216.65 / 288.15 := by norm_num
  have hx1 : (216.65 : ℝ) / 288.15 ≤ 1 := by norm_num
  have hmono : ((216.65 : ℝ) / 288.15) ^ ((9.81 : ℝ) / 1.8655) ≤
      ((216.65 : ℝ) / 288.15) ^ ((305 : ℝ) / 58) :=
    Real.rpow_le_rpow_of_exponent_ge hx0 hx1 (by norm_num)
  refine hmono.trans ?_
  have hpow : (((216.65 : ℝ) / 288.15) ^ ((305 : ℝ) / 58)) ^ (58 : ℕ) =
      ((216.65 : ℝ) / 288.15) ^ (305 : ℕ) := by
    rw [← Real.rpow_natCast (((216.65 : ℝ) / 288.15) ^ ((305 : ℝ) / 58)) 58,
      ← Real.rpow_mul hx0.le, ← Real.rpow_natCast ((216.65 : ℝ) / 288.15) 305]
    norm_num
  have hcmp : (((216.65 : ℝ) / 288.15) ^ ((305 : ℝ) / 58)) ^ (58 : ℕ) ≤
      (0.2232 : ℝ) ^ (58 : ℕ) := by
    rw [hpow]
    norm_num
  exact le_of_pow_le_pow_left₀ (by norm_num) (by norm_num) hcmp

set_option maxHeartbeats 4000000 in
lemma rpow_main_lower :
    (0.22315 : ℝ) ≤ ((216.65 : ℝ) / 288.15) ^ ((9.81 : ℝ) / 1.8655) := by
  have hx0 : (0 : ℝ) < 216.65 / 288.15 := by norm_num
  have hx1 : (216.65 : ℝ) / 288.15 ≤ 1 := by norm_num
  have hmono : ((216.65 : ℝ) / 288.15) ^ ((3802 : ℝ) / 723) ≤
      ((216.65 : ℝ) / 288.15) ^ ((9.81 : ℝ) / 1.8655) :=
    Real.rpow_le_rpow_of_exponent_ge hx0 hx1 (by norm_num)
  refine le_trans ?_ hmono
  have hy0 : (0 : ℝ) ≤ ((216.65 : ℝ) / 288.15) ^ ((3802 : ℝ) / 723) :=
    Real.rpow_nonneg hx0.le _
  have hpow : (((216.65 : ℝ) / 288.15) ^ ((3802 : ℝ) / 723)) ^ (723 : ℕ) =
      ((216.65 : ℝ) / 288.15) ^ (3802 : ℕ) := by
    rw [← Real.rpow_natCast (((216.65 : ℝ) / 288.15) ^ ((3802 : ℝ) / 723)) 723,
      ← Real.rpow_mul hx0.le, ← Real.rpow_natCast ((216.65 : ℝ) / 288.15) 3802]
    norm_num
  have hcmp : (0.22315 : ℝ) ^ (723 : ℕ) ≤
      (((216.65 : ℝ) / 288.15) ^ ((3802 : ℝ) / 723)) ^ (723 : ℕ) := by
    rw [hpow]
    norm_num
  exact le_of_pow_le_pow_left₀ (by norm_num) hy0 hcmp

lemma isa_strato_density_eq :
    (isa_strato 11000).1 = 22632 / (287 * 216.65) := by
  simp only [isa_strato]
  norm_num [Real.exp_zero]

lemma isa_tropo_density_eq :
    (isa_tropo 11000).1 =
      101325 * (((216.65 : ℝ) / 288.15) ^ ((9.81 : ℝ) / 1.8655)) /
        (287 * 216.65) := by
  have hT : (288.15 + (-0.0065) * (11000 : ℝ)) = 216.65 := by norm_num
  have hE : -g / ((-0.0065) * 287) = (9.81 : ℝ) / 1.8655 := by
    simp only [g]; norm_num
  simp only [isa_tropo, hT, hE]

/-- C6 counterexample: the two ISA branches evaluated at 11000 m do not
agree to floating-point tolerance — their densities differ by more than
10^-4 kg/m^3 (about 0.08%), because the stratosphere branch hard-codes
the standard tropopause pressure 22632 Pa while the troposphere branch
with the source constants g = 9.81, R = 287 yields about 22614 Pa. -/
theorem tropopause_density_gap_counterexample :
    1 / 10000 < |(isa_tropo 11000).1 - (isa_strato 11000).1| := by
  rw [isa_tropo_density_eq, isa_strato_density_eq]
  have hXu := rpow_main_upper
  rw [div_sub_div_same, abs_div,
    abs_of_pos (show (0 : ℝ) < 287 * 216.65 by norm_num)]
  have habs : |101325 * (((216.65 : ℝ) / 288.15) ^ ((9.81 : ℝ) / 1.8655)) -
      22632| =
      22632 - 101325 * (((216.65 : ℝ) / 288.15) ^ ((9.81 : ℝ) / 1.8655)) := by
    rw [abs_of_neg (by nlinarith)]
    ring
  rw [habs, lt_div_iff₀ (by norm_num : (0 : ℝ) < 287 * 216.65)]
  nlinarith

/-- C6 amended: at the tropopause the two branches give the same
temperature, hence exactly the same speed of sound, while the densities
agree only to about 0.08% — within 0.1%, but not within floating-point
tolerance. -/
theorem tropopause_branches_agree :
    (isa_tropo 11000).2 = (isa_strato 11000).2 ∧
      |(isa_tropo 11000).1 - (isa_strato 11000).1| <
        0.001 * (isa_strato 11000).1 := by
  constructor
  · simp only [isa_tropo, isa_strato]
    norm_num
  · rw [isa_tropo_density_eq, isa_strato_density_eq]
    have hXu := rpow_main_upper
    have hXl := rpow_main_lower
    rw [div_sub_div_same, abs_div,
      abs_of_pos (show (0 : ℝ) < 287 * 216.65 by norm_num)]
    have habs : |101325 * (((216.65 : ℝ) / 288.15) ^ ((9.81 : ℝ) / 1.8655)) -
        22632| =
        22632 - 101325 * (((216.65 : ℝ) / 288.15) ^ ((9.81 : ℝ) / 1.8655)) := by
      rw [abs_of_neg (by nlinarith)]
      ring
    rw [habs,
      show (0.001 : ℝ) * (22632 / (287 * 216.65)) =
        (0.001 * 22632) / (287 * 216.65) by ring,
      div_lt_div_iff₀ (by norm_num) (by norm_num)]
    nlinarith

end B777
